import Mathlib

/-!
Shallow embedding of `src/database/init_db.py`, a one-shot provisioner that
brings a SQLite file to a fixed target state: it creates the tables
`app_info`, `users`, `todos` and the trigger `trg_todos_updated_at` (all with
IF NOT EXISTS guards), upserts four metadata rows into `app_info` via
INSERT OR REPLACE, optionally seeds three sample `todos` rows when the
SEED_TODOS environment variable is truthy and the table is empty, and writes
two artifact files recording the database's absolute path.

The embedding models:
  * the database state (schema flags, row lists, AUTOINCREMENT sequences),
  * SQLite statement semantics for the statements the script issues
    (CREATE ... IF NOT EXISTS, INSERT OR REPLACE with rowid reassignment,
    plain INSERT, the AFTER UPDATE trigger),
  * the Python string operations `str.strip`, `str.lower` used to parse
    the SEED_TODOS toggle,
  * the POSIX path operations `os.path.join` / `os.path.normpath` /
    `os.path.abspath` used to build the artifact files,
  * the script's exception-handling structure (which steps are wrapped in
    try/except and which are not),
  * the per-connection statement traces (which connections issue the
    foreign-keys pragma).
-/

/-- Timestamps produced by SQLite's CURRENT_TIMESTAMP, abstracted as naturals
supplied by the environment. -/
abbrev Timestamp := Nat

/-- A row of `app_info`: `id INTEGER PRIMARY KEY AUTOINCREMENT`,
`key TEXT UNIQUE NOT NULL`, `value TEXT` (nullable),
`created_at TIMESTAMP DEFAULT CURRENT_TIMESTAMP`. -/
structure AppInfoRow where
  id : Nat
  key : String
  value : Option String
  created_at : Timestamp
deriving DecidableEq, Repr

/-- A row of `users`: `id`, `username TEXT UNIQUE NOT NULL`,
`email TEXT UNIQUE NOT NULL`, `created_at`. The script creates this table but
never inserts into it. -/
structure UserRow where
  id : Nat
  username : String
  email : String
  created_at : Timestamp
deriving DecidableEq, Repr

/-- A row of `todos`: `id INTEGER PRIMARY KEY AUTOINCREMENT`,
`title TEXT NOT NULL`, `description TEXT DEFAULT ''`,
`completed INTEGER NOT NULL DEFAULT 0`, `created_at`, `updated_at` (both
defaulting to CURRENT_TIMESTAMP). -/
structure TodoRow where
  id : Nat
  title : String
  description : String
  completed : Int
  created_at : Timestamp
  updated_at : Timestamp
deriving DecidableEq, Repr

/-- Which schema objects exist in the SQLite file (the three tables and the
trigger created by the script). -/
structure Schema where
  hasAppInfo : Bool
  hasUsers : Bool
  hasTodos : Bool
  hasTrigger : Bool
deriving DecidableEq, Repr

/-- The database state: schema objects, the rows of each table (in rowid
order, as returned by `SELECT *`), and the `sqlite_sequence` counters backing
the AUTOINCREMENT columns of `app_info` and `todos`. -/
structure DBState where
  schema : Schema
  app_info : List AppInfoRow
  appInfoSeq : Nat
  users : List UserRow
  todos : List TodoRow
  todosSeq : Nat
deriving DecidableEq, Repr

/-- An empty SQLite file: no schema objects, no rows, fresh sequences. -/
def freshDB : DBState :=
  { schema := ⟨false, false, false, false⟩
    app_info := []
    appInfoSeq := 0
    users := []
    todos := []
    todosSeq := 0 }

/-- `CREATE TABLE IF NOT EXISTS app_info (...)`: a no-op when the table
exists, otherwise creates it empty with a fresh sequence. -/
def createTableAppInfo (s : DBState) : DBState :=
  if s.schema.hasAppInfo then s
  else { s with schema := { s.schema with hasAppInfo := true },
                app_info := [], appInfoSeq := 0 }

/-- `CREATE TABLE IF NOT EXISTS users (...)`. -/
def createTableUsers (s : DBState) : DBState :=
  if s.schema.hasUsers then s
  else { s with schema := { s.schema with hasUsers := true }, users := [] }

/-- `CREATE TABLE IF NOT EXISTS todos (...)`. -/
def createTableTodos (s : DBState) : DBState :=
  if s.schema.hasTodos then s
  else { s with schema := { s.schema with hasTodos := true },
                todos := [], todosSeq := 0 }

/-- `CREATE TRIGGER IF NOT EXISTS trg_todos_updated_at ...`. -/
def createTriggerStep (s : DBState) : DBState :=
  if s.schema.hasTrigger then s
  else { s with schema := { s.schema with hasTrigger := true } }

/-- The greatest rowid currently present in a list of `app_info` rows. -/
def maxAppInfoId (rows : List AppInfoRow) : Nat :=
  rows.foldl (fun m r => max m r.id) 0

/-- The greatest rowid currently present in a list of `todos` rows. -/
def maxTodoId (rows : List TodoRow) : Nat :=
  rows.foldl (fun m r => max m r.id) 0

/-- `INSERT OR REPLACE INTO app_info (key, value) VALUES (?, ?)`.
SQLite's REPLACE conflict resolution deletes any existing row that conflicts
on the UNIQUE `key` column and inserts a brand-new row; because `id` is an
AUTOINCREMENT primary key left unspecified, the new row receives a rowid one
larger than the largest rowid ever used (tracked by `sqlite_sequence`), and
`created_at` takes its default CURRENT_TIMESTAMP. -/
def insertOrReplaceAppInfo (now : Timestamp) (k v : String) (s : DBState) :
    DBState :=
  let newId := max s.appInfoSeq (maxAppInfoId s.app_info) + 1
  { s with
      app_info := s.app_info.filter (fun r => r.key ≠ k) ++
        [{ id := newId, key := k, value := some v, created_at := now }]
      appInfoSeq := newId }

/-- `INSERT INTO todos (title, description, completed) VALUES (?, ?, ?)`:
appends a new row with a fresh AUTOINCREMENT rowid and default timestamps. -/
def insertTodo (now : Timestamp) (title descr : String) (completed : Int)
    (s : DBState) : DBState :=
  let newId := max s.todosSeq (maxTodoId s.todos) + 1
  { s with
      todos := s.todos ++
        [{ id := newId, title := title, description := descr
           completed := completed, created_at := now, updated_at := now }]
      todosSeq := newId }

/-- `DB_NAME = "myapp.db"` from the script. -/
def DB_NAME : String := "myapp.db"

/-- Python whitespace characters recognised by `str.strip()` (ASCII range). -/
def pyWhitespace (c : Char) : Bool :=
  c = ' ' || c = '\t' || c = '\n' || c = '\r' || c = '\x0b' || c = '\x0c'

/-- `str.strip()` on the underlying character list: drop whitespace from both
ends. -/
def pyStripData (s : List Char) : List Char :=
  ((s.dropWhile pyWhitespace).reverse.dropWhile pyWhitespace).reverse

/-- Python `str.strip()`. -/
def pyStrip (s : String) : String := ⟨pyStripData s.data⟩

/-- Python `str.lower()` on one character (ASCII case mapping, which covers
every character the script compares against). -/
def pyLowerChar (c : Char) : Char :=
  if 'A' ≤ c && c ≤ 'Z' then Char.ofNat (c.toNat + 32) else c

/-- Python `str.lower()`. -/
def pyLower (s : String) : String := ⟨s.data.map pyLowerChar⟩

/-- The truthy set the script compares the toggle against:
`("1", "true", "yes", "y")`. -/
def truthyValues : List String := ["1", "true", "yes", "y"]

/-- `os.getenv("SEED_TODOS", "").strip().lower() in ("1", "true", "yes", "y")`.
`seedTodos` is the value of the SEED_TODOS environment variable
(`none` when unset). -/
def seed_flag (seedTodos : Option String) : Bool :=
  truthyValues.contains (pyLower (pyStrip (seedTodos.getD "")))

/-- The three fixed sample rows `sample_todos` (title, description,
completed). -/
def sample_todos : List (String × String × Int) :=
  [("Buy groceries", "Milk, eggs, bread", 0),
   ("Finish project", "Complete the todo app backend", 0),
   ("Read a book", "Spend 30 minutes reading", 0)]

/-- The database-modifying part of one run of the provisioner, in the
script's statement order: the four CREATE ... IF NOT EXISTS statements, the
four `INSERT OR REPLACE INTO app_info` upserts, then the conditional seeding
(`if seed_flag: if COUNT(*) == 0: insert the three sample rows`). `now` is
the run's CURRENT_TIMESTAMP and `seedTodos` the SEED_TODOS value. -/
def provisionDB (now : Timestamp) (seedTodos : Option String)
    (s : DBState) : DBState :=
  let s := createTableAppInfo s
  let s := createTableUsers s
  let s := createTableTodos s
  let s := createTriggerStep s
  let s := insertOrReplaceAppInfo now "project_name" "database" s
  let s := insertOrReplaceAppInfo now "version" "0.1.0" s
  let s := insertOrReplaceAppInfo now "author" "John Doe" s
  let s := insertOrReplaceAppInfo now "description" "" s
  if seed_flag seedTodos then
    if s.todos.length = 0 then
      (sample_todos.foldl
        (fun st row => insertTodo now row.1 row.2.1 row.2.2 st) s)
    else s
  else s

/-- The key/value projection of an `app_info` row (what `SELECT key, value`
returns). -/
def appInfoKV (r : AppInfoRow) : String × Option String := (r.key, r.value)

/-- Wellformedness tying rows to schema: a SQLite file with no `todos` table
holds no `todos` rows. Every state SQLite can present satisfies this. -/
def TodosConsistent (s : DBState) : Prop :=
  s.schema.hasTodos = false → s.todos = []

/-- The state reached after the four CREATE statements and the four
`app_info` upserts, before the conditional seeding. -/
def chainState (now : Timestamp) (s : DBState) : DBState :=
  insertOrReplaceAppInfo now "description" ""
    (insertOrReplaceAppInfo now "author" "John Doe"
      (insertOrReplaceAppInfo now "version" "0.1.0"
        (insertOrReplaceAppInfo now "project_name" "database"
          (createTriggerStep (createTableTodos
            (createTableUsers (createTableAppInfo s)))))))

/-- The four metadata keys the script upserts. -/
def appInfoKeys : List String :=
  ["project_name", "version", "author", "description"]

/-- The key/value pairs the script upserts into `app_info`. -/
def expectedAppInfo : List (String × Option String) :=
  [("project_name", some "database"), ("version", some "0.1.0"),
   ("author", some "John Doe"), ("description", some "")]

/-- A dirty prior state: `app_info` already holds rows for two of the four
keys with other values and ids, exercising the "regardless of prior row
content" part of claim C2. -/
def dirtyAppInfoState : DBState :=
  { schema := ⟨true, true, true, true⟩
    app_info := [⟨1, "version", some "9.9.9", 17⟩,
                 ⟨2, "project_name", none, 3⟩]
    appInfoSeq := 2
    users := []
    todos := []
    todosSeq := 0 }

/-- A prior state whose `todos` table already holds one row. -/
def busyTodosState : DBState :=
  { schema := ⟨true, true, true, true⟩
    app_info := []
    appInfoSeq := 0
    users := []
    todos := [⟨1, "existing", "kept", 1, 0, 0⟩]
    todosSeq := 1 }

/-- Case-insensitive string comparison: both sides lowercased. -/
def ciEq (a b : String) : Prop := pyLower a = pyLower b

instance (a b : String) : Decidable (ciEq a b) := by
  unfold ciEq; exact inferInstance

/-- The body of the trigger `trg_todos_updated_at` (AFTER UPDATE ON todos
FOR EACH ROW): `UPDATE todos SET updated_at = CURRENT_TIMESTAMP WHERE
id = NEW.id`. `newRow` is the trigger's NEW row. -/
def trg_todos_updated_at (now : Timestamp) (newRow : TodoRow)
    (todos : List TodoRow) : List TodoRow :=
  todos.map (fun r =>
    if r.id = newRow.id then { r with updated_at := now } else r)

/-- An arbitrary UPDATE statement hitting the row at position `i` of `todos`
(applying the statement's column assignments `f` to it), followed by the
AFTER UPDATE firing of `trg_todos_updated_at` with NEW bound to the updated
row. -/
def updateTodoAt (now : Timestamp) (f : TodoRow → TodoRow) (i : Nat)
    (todos : List TodoRow) : List TodoRow :=
  match todos[i]? with
  | none => todos
  | some r => trg_todos_updated_at now (f r) (todos.set i (f r))

/-- A concrete one-row `todos` table for exercising the trigger. -/
def witnessTodoRow : TodoRow :=
  ⟨1, "a", "b", 0, 0, 0⟩

/-- A concrete UPDATE that renames the todo and itself assigns
`updated_at := 99`. -/
def witnessUpdate : TodoRow → TodoRow :=
  fun r => { r with title := "changed", updated_at := 99 }

/-- The SQL statements the script can issue, one constructor per statement
shape in `init_db.py`. -/
inductive Stmt where
  | select1
  | pragmaForeignKeys
  | createAppInfoTable
  | createUsersTable
  | createTodosTable
  | createTodosTrigger
  | upsertAppInfo (key value : String)
  | selectCountTodos
  | insertTodoRow (title descr : String) (completed : Int)
  | selectCountTables
  | selectCountAppInfo
deriving DecidableEq, Repr

/-- The statements issued on the accessibility-probe connection opened when
the database file already exists (lines 30–33): `conn.execute("SELECT 1")`
and nothing else — in particular no foreign-keys pragma. -/
def probeConnStatements : List Stmt := [Stmt.select1]

/-- The statements issued on the main provisioning connection, in program
order: the pragma first, then schema creation, upserts, the conditional
seeding, and the three summary counts. `todosEmpty` is the outcome of the
`SELECT COUNT(*) FROM todos` check. -/
def mainConnStatements (v : Option String) (todosEmpty : Bool) :
    List Stmt :=
  [Stmt.pragmaForeignKeys, Stmt.createAppInfoTable, Stmt.createUsersTable,
   Stmt.createTodosTable, Stmt.createTodosTrigger,
   Stmt.upsertAppInfo "project_name" "database",
   Stmt.upsertAppInfo "version" "0.1.0",
   Stmt.upsertAppInfo "author" "John Doe",
   Stmt.upsertAppInfo "description" ""] ++
  (if seed_flag v then
    [Stmt.selectCountTodos] ++
    (if todosEmpty then
      [Stmt.insertTodoRow "Buy groceries" "Milk, eggs, bread" 0,
       Stmt.insertTodoRow "Finish project" "Complete the todo app backend" 0,
       Stmt.insertTodoRow "Read a book" "Spend 30 minutes reading" 0]
    else [])
  else []) ++
  [Stmt.selectCountTables, Stmt.selectCountAppInfo, Stmt.selectCountTodos]

/-- The connections one run opens, each with its statement list in order:
the probe connection (only when the file already exists) followed by the
main connection. -/
def connectionsOpened (dbExists : Bool) (v : Option String)
    (todosEmpty : Bool) : List (List Stmt) :=
  (if dbExists then [probeConnStatements] else []) ++
  [mainConnStatements v todosEmpty]

/-- A failure oracle: which primitive operation of one run raises an
exception. One field per operation the script performs that can fail. -/
structure FailureEnv where
  probeRaises : Bool
  connectRaises : Bool
  schemaRaises : Bool
  insertRaises : Bool
  connInfoWriteRaises : Bool
  makedirsRaises : Bool
  envWriteRaises : Bool
  cliDetectRaises : Bool
deriving DecidableEq, Repr

/-- Warnings the script can print (each try/except body prints one). -/
inductive WarningKind where
  | probeCorrupt
  | connInfoWrite
  | envWrite
deriving DecidableEq, Repr

/-- How one run ends: normal completion with the warnings printed along the
way, or a crash (an uncaught exception) at a named step. -/
inductive RunOutcome where
  | completed (warnings : List WarningKind)
  | crashed (step : String)
deriving DecidableEq, Repr

/-- The exception-handling skeleton of the script, in program order.
The probe (lines 30–36) and the two artifact writes (lines 150–162 and
172–177) sit inside try/except blocks that print a warning and continue; the
CLI detection (lines 197–204) sits inside try/except that passes silently;
everything else — the main connect, the CREATE statements, the inserts, and
the `os.makedirs` call (lines 168–169) — has no handler, so a raise there
terminates the process. -/
def runScript (dbExists : Bool) (env : FailureEnv) : RunOutcome :=
  let w0 : List WarningKind :=
    if dbExists && env.probeRaises then [WarningKind.probeCorrupt] else []
  if env.connectRaises then RunOutcome.crashed "connect"
  else if env.schemaRaises then RunOutcome.crashed "schema"
  else if env.insertRaises then RunOutcome.crashed "insert"
  else
    let w1 := w0 ++
      (if env.connInfoWriteRaises then [WarningKind.connInfoWrite] else [])
    if env.makedirsRaises then RunOutcome.crashed "makedirs"
    else
      let w2 := w1 ++
        (if env.envWriteRaises then [WarningKind.envWrite] else [])
      RunOutcome.completed w2

/-- A failure oracle where the probe and the connection-info write raise and
everything else succeeds. -/
def softFailures : FailureEnv :=
  ⟨true, false, false, false, true, false, false, false⟩

/-- Python `path.split("/")` on the underlying character list. -/
def splitSlash : List Char → List (List Char)
  | [] => [[]]
  | c :: rest =>
    if c = '/' then [] :: splitSlash rest
    else
      match splitSlash rest with
      | [] => [[c]]
      | g :: gs => (c :: g) :: gs

/-- Python `"/".join(comps)`. -/
def joinComps : List (List Char) → List Char
  | [] => []
  | [g] => g
  | g :: rest => g ++ '/' :: joinComps rest

/-- The `initial_slashes` computation of `posixpath.normpath`: 2 for paths
starting with exactly two slashes (a POSIX special case), 1 for other
absolute paths, 0 otherwise. -/
def initSlashes (s : List Char) : Nat :=
  if s.take 3 = ['/', '/', '/'] then 1
  else if s.take 2 = ['/', '/'] then 2
  else if s.take 1 = ['/'] then 1
  else 0

/-- One step of `posixpath.normpath`'s component loop: skip empty and `.`
components, append ordinary components, and let `..` pop the previous
component (except at the root of an absolute path or after an unresolved
`..`). -/
def npStep (islash : Nat) (acc : List (List Char)) (comp : List Char) :
    List (List Char) :=
  if comp = [] ∨ comp = ['.'] then acc
  else if comp ≠ ['.', '.'] ∨ (islash = 0 ∧ acc = []) ∨
      acc.getLast? = some ['.', '.'] then acc ++ [comp]
  else if acc ≠ [] then acc.dropLast
  else acc

/-- `posixpath.normpath` on the underlying character list. -/
def pyNormpathData (s : List Char) : List Char :=
  if s = [] then ['.']
  else
    let islash := initSlashes s
    let comps := (splitSlash s).foldl (npStep islash) []
    let out := List.replicate islash '/' ++ joinComps comps
    if out = [] then ['.'] else out

/-- `os.path.normpath` (POSIX flavour). -/
def pyNormpath (s : String) : String := ⟨pyNormpathData s.data⟩

/-- `posixpath.join(a, b)` for one relative-or-absolute second argument. -/
def pyJoin (a b : String) : String :=
  if b.data.head? = some '/' then b
  else if a.data = [] ∨ a.data.getLast? = some '/' then a ++ b
  else a ++ "/" ++ b

/-- `os.path.abspath(p)` with the process working directory `cwd`:
join against the working directory when relative, then normalise. -/
def pyAbspath (cwd p : String) : String :=
  if p.data.head? = some '/' then pyNormpath p
  else pyNormpath (pyJoin cwd p)

/-- `db_abs_path = f"{current_dir}/{DB_NAME}"` (line 147): plain string
interpolation of the working directory and the fixed file name. -/
def db_abs_path (cwd : String) : String := cwd ++ "/" ++ DB_NAME

/-- `connection_string = f"sqlite:///{db_abs_path}"` (line 148). -/
def connection_string (cwd : String) : String :=
  "sqlite:///" ++ db_abs_path cwd

/-- The full text written to `db_connection.txt` (lines 151–159). -/
def db_connection_txt (cwd : String) : String :=
  "# SQLite connection methods:\n" ++
  "# Python: sqlite3.connect(\x27" ++ DB_NAME ++ "\x27)\n" ++
  "# Connection string: " ++ connection_string cwd ++ "\n" ++
  "# File path: " ++ db_abs_path cwd ++ "\n" ++
  "# Usage notes:\n" ++
  "# - Always enable foreign keys after connecting: cursor.execute(\"PRAGMA foreign_keys = ON\")\n" ++
  "# - updated_at on todos is maintained by trigger \x27trg_todos_updated_at\x27\n" ++
  "# - Example CLI query: sqlite3 myapp.db \"SELECT * FROM todos;\"\n"

/-- The full text written to `db_visualizer/sqlite.env` (line 174), using
`db_path = os.path.abspath(DB_NAME)` (line 165). -/
def sqlite_env_file (cwd : String) : String :=
  "export SQLITE_DB=\"" ++ pyAbspath cwd DB_NAME ++ "\"\n"

/-- The canonical component decomposition of a path: `normpath`'s component
loop applied to its slash-split. Two strings denote the same filesystem path
exactly when their decompositions (and absoluteness) agree. -/
def pathParts (s : String) : List (List Char) :=
  (splitSlash s.data).foldl (npStep (initSlashes s.data)) []

/-- Whether a path string is absolute. -/
def isAbsPath (s : String) : Bool := s.data.head? = some '/'

/-- Path equality in the filesystem sense: same absoluteness and the same
canonical components (string formatting such as duplicated slashes is
ignored). -/
def pathEquiv (a b : String) : Prop :=
  isAbsPath a = isAbsPath b ∧ pathParts a = pathParts b

/-- A sane path component: nonempty, no slash, not `.` or `..`. `getcwd`
only returns absolute paths made of such components. -/
def goodComp (c : List Char) : Prop :=
  c ≠ [] ∧ '/' ∉ c ∧ c ≠ ['.'] ∧ c ≠ ['.', '.']

/-- The absolute path with the given components (`/` when empty). -/
def renderAbsPath (comps : List (List Char)) : String :=
  ⟨'/' :: joinComps comps⟩

instance (c : List Char) : Decidable (goodComp c) := by
  unfold goodComp; infer_instance

instance (a b : String) : Decidable (pathEquiv a b) := by
  unfold pathEquiv; infer_instance

example : seed_flag (some "1") = true := by decide

example : seed_flag (some " TRUE ") = true := by decide

example : seed_flag (some "no") = false := by decide

example : seed_flag none = false := by decide

example :
    (provisionDB 0 none freshDB).app_info.map appInfoKV =
      [("project_name", some "database"), ("version", some "0.1.0"),
       ("author", some "John Doe"), ("description", some "")] := by decide

example :
    (provisionDB 0 (some "1") freshDB).todos.length = 3 := by decide

example :
    (provisionDB 5 none (provisionDB 3 none freshDB)).app_info.map
        (fun r => r.id) = [5, 6, 7, 8] := by decide

/-- After one run every schema object exists, whatever existed before. -/
theorem provisionDB_schema (now : Timestamp) (v : Option String)
    (s : DBState) : (provisionDB now v s).schema = ⟨true, true, true, true⟩ := by
  obtain ⟨⟨a, b, c, d⟩, ai, aq, us, td, tq⟩ := s
  cases hsf : seed_flag v <;> cases a <;> cases b <;> cases c <;> cases d <;>
    simp only [provisionDB, createTableAppInfo, createTableUsers,
      createTableTodos, createTriggerStep, insertOrReplaceAppInfo, insertTodo,
      hsf, if_true, if_false, Bool.false_eq_true, Bool.true_eq_false] <;>
    first
      | rfl
      | (split <;> rfl)

/-- `provisionDB` is the chain of creates and upserts followed by the
conditional seed of the three sample rows. -/
theorem provisionDB_run_eq (now : Timestamp) (v : Option String)
    (s : DBState) :
    provisionDB now v s =
      (if seed_flag v = true then
        (if (chainState now s).todos.length = 0 then
          sample_todos.foldl
            (fun st row => insertTodo now row.1 row.2.1 row.2.2 st)
            (chainState now s)
        else chainState now s)
      else chainState now s) := rfl

theorem createTableAppInfo_todos (s : DBState) :
    (createTableAppInfo s).todos = s.todos := by
  unfold createTableAppInfo; split <;> rfl

theorem createTableUsers_todos (s : DBState) :
    (createTableUsers s).todos = s.todos := by
  unfold createTableUsers; split <;> rfl

theorem createTriggerStep_todos (s : DBState) :
    (createTriggerStep s).todos = s.todos := by
  unfold createTriggerStep; split <;> rfl

theorem createTableAppInfo_hasTodos (s : DBState) :
    (createTableAppInfo s).schema.hasTodos = s.schema.hasTodos := by
  unfold createTableAppInfo; split <;> rfl

theorem createTableUsers_hasTodos (s : DBState) :
    (createTableUsers s).schema.hasTodos = s.schema.hasTodos := by
  unfold createTableUsers; split <;> rfl

theorem createTableTodos_todos (s : DBState)
    (h : s.schema.hasTodos = false → s.todos = []) :
    (createTableTodos s).todos = s.todos := by
  unfold createTableTodos
  split
  · rfl
  · next hn => exact (h (Bool.not_eq_true _ ▸ eq_false_of_ne_true hn)).symm

theorem insertOrReplaceAppInfo_todos (now : Timestamp) (k v : String)
    (s : DBState) : (insertOrReplaceAppInfo now k v s).todos = s.todos := rfl

/-- Under wellformedness, the creates and upserts leave `todos` as found. -/
theorem chainState_todos (now : Timestamp) (s : DBState)
    (hc : TodosConsistent s) : (chainState now s).todos = s.todos := by
  unfold chainState
  rw [insertOrReplaceAppInfo_todos, insertOrReplaceAppInfo_todos,
    insertOrReplaceAppInfo_todos, insertOrReplaceAppInfo_todos,
    createTriggerStep_todos, createTableTodos_todos, createTableUsers_todos,
    createTableAppInfo_todos]
  intro h
  rw [createTableUsers_todos, createTableAppInfo_todos]
  exact hc (by rw [createTableUsers_hasTodos, createTableAppInfo_hasTodos] at h; exact h)

/-- The `app_info` column of the result is unaffected by the seeding branch. -/
theorem provisionDB_app_info_eq (now : Timestamp) (v : Option String)
    (s : DBState) :
    (provisionDB now v s).app_info = (chainState now s).app_info := by
  rw [provisionDB_run_eq]
  split
  · split
    · rfl
    · rfl
  · rfl

/-- Folding the three sample inserts over a state with empty `todos` yields
exactly the three sample rows, with consecutive fresh ids and the run's
timestamp. -/
theorem seedFold_todos (now : Timestamp) (st : DBState)
    (h : st.todos = []) :
    (sample_todos.foldl
        (fun acc row => insertTodo now row.1 row.2.1 row.2.2 acc) st).todos =
      [⟨st.todosSeq + 1, "Buy groceries", "Milk, eggs, bread", 0, now, now⟩,
       ⟨st.todosSeq + 2, "Finish project", "Complete the todo app backend", 0,
         now, now⟩,
       ⟨st.todosSeq + 3, "Read a book", "Spend 30 minutes reading", 0,
         now, now⟩] := by
  simp [sample_todos, insertTodo, maxTodoId, h]

/-- Either seeding fires (toggle truthy and `todos` empty), in which case the
run leaves exactly three rows, all with `completed = 0`; or it does not, in
which case the `todos` table is exactly as found. -/
theorem provisionDB_todos_shape (now : Timestamp) (v : Option String)
    (s : DBState) (hc : TodosConsistent s) :
    (seed_flag v = true ∧ s.todos = [] ∧
        (provisionDB now v s).todos.length = 3 ∧
        ∀ r ∈ (provisionDB now v s).todos, r.completed = 0) ∨
      (¬(seed_flag v = true ∧ s.todos = []) ∧
        (provisionDB now v s).todos = s.todos) := by
  by_cases hsf : seed_flag v = true
  · by_cases hse : s.todos = []
    · left
      refine ⟨hsf, hse, ?_⟩
      have hch : (chainState now s).todos = [] := by
        rw [chainState_todos now s hc, hse]
      have hres : provisionDB now v s =
          sample_todos.foldl
            (fun st row => insertTodo now row.1 row.2.1 row.2.2 st)
            (chainState now s) := by
        rw [provisionDB_run_eq, if_pos hsf, if_pos (by rw [hch]; rfl)]
      rw [hres, seedFold_todos now _ hch]
      refine ⟨rfl, ?_⟩
      intro r hr
      simp only [List.mem_cons, List.not_mem_nil, or_false] at hr
      rcases hr with h1 | h1 | h1 <;> subst h1 <;> rfl
    · right
      refine ⟨fun hcon => hse hcon.2, ?_⟩
      have hch := chainState_todos now s hc
      rw [provisionDB_run_eq, if_pos hsf,
        if_neg (by rw [hch]; exact fun hl => hse (List.length_eq_zero.mp hl))]
      exact hch
  · right
    refine ⟨fun hcon => hsf hcon.1, ?_⟩
    rw [provisionDB_run_eq, if_neg hsf]
    exact chainState_todos now s hc

theorem createTableUsers_app_info (s : DBState) :
    (createTableUsers s).app_info = s.app_info := by
  unfold createTableUsers; split <;> rfl

theorem createTableTodos_app_info (s : DBState) :
    (createTableTodos s).app_info = s.app_info := by
  unfold createTableTodos; split <;> rfl

theorem createTriggerStep_app_info (s : DBState) :
    (createTriggerStep s).app_info = s.app_info := by
  unfold createTriggerStep; split <;> rfl

/-- A list of rows whose keys all lie in `appInfoKeys` is emptied by the four
key filters the upserts perform. -/
theorem filter_appInfoKeys_nil (l : List AppInfoRow)
    (h : ∀ r ∈ l, r.key ∈ appInfoKeys) :
    ((((l.filter (fun r => r.key ≠ "project_name")).filter
        (fun r => r.key ≠ "version")).filter
          (fun r => r.key ≠ "author")).filter
            (fun r => r.key ≠ "description")) = [] := by
  rw [List.filter_filter, List.filter_filter, List.filter_filter,
    List.filter_eq_nil_iff]
  intro r hr
  have hk := h r hr
  simp only [appInfoKeys, List.mem_cons, List.not_mem_nil, or_false] at hk
  rcases hk with hk | hk | hk | hk <;> simp [hk]

/-- The four upserts rewrite `app_info` to exactly the four expected
key/value pairs whenever the prior rows only used those keys. -/
theorem upserts4_map_kv (now : Timestamp) (s : DBState)
    (h : ∀ r ∈ s.app_info, r.key ∈ appInfoKeys) :
    (insertOrReplaceAppInfo now "description" ""
      (insertOrReplaceAppInfo now "author" "John Doe"
        (insertOrReplaceAppInfo now "version" "0.1.0"
          (insertOrReplaceAppInfo now "project_name" "database"
            s)))).app_info.map appInfoKV = expectedAppInfo := by
  unfold insertOrReplaceAppInfo
  simp only [List.filter_append, List.map_append]
  rw [filter_appInfoKeys_nil _ h]
  rfl

/-- After any run, the key/value contents of `app_info` are exactly the four
expected pairs, provided the prior rows only used those four keys. -/
theorem provisionDB_app_info_kv (now : Timestamp) (v : Option String)
    (s : DBState) (h : ∀ r ∈ s.app_info, r.key ∈ appInfoKeys) :
    (provisionDB now v s).app_info.map appInfoKV = expectedAppInfo := by
  rw [provisionDB_app_info_eq]
  unfold chainState
  have hbase : ∀ r ∈ (createTriggerStep (createTableTodos
      (createTableUsers (createTableAppInfo s)))).app_info,
      r.key ∈ appInfoKeys := by
    rw [createTriggerStep_app_info, createTableTodos_app_info,
      createTableUsers_app_info]
    unfold createTableAppInfo
    split
    · exact h
    · intro r hr; exact absurd hr (List.not_mem_nil r)
  exact upserts4_map_kv now _ hbase

/-- Claim C1 (as stated): running the provisioner twice on a fresh target is
claimed to produce identical schema and identical `app_info` table contents
after the two runs. This is false for full row contents: INSERT OR REPLACE
deletes the conflicting row and inserts a fresh one, so the AUTOINCREMENT
ids of the four metadata rows change between the runs (ids 1–4 after the
first run, 5–8 after the second), even at identical timestamps. -/
theorem claim_C1_counterexample :
    ¬ ((provisionDB 0 none (provisionDB 0 none freshDB)).schema =
          (provisionDB 0 none freshDB).schema ∧
        (provisionDB 0 none (provisionDB 0 none freshDB)).app_info =
          (provisionDB 0 none freshDB).app_info) := by
  decide

/-- Claim C1 (amended): running the provisioner twice in succession on a
fresh target produces an identical schema and identical `app_info` key/value
contents after the first and the second run; only the auto-assigned row ids
and `created_at` timestamps of the `app_info` rows differ between runs. -/
theorem claim_C1_amended (t1 t2 : Timestamp) (v : Option String) :
    (provisionDB t2 v (provisionDB t1 v freshDB)).schema =
        (provisionDB t1 v freshDB).schema ∧
      (provisionDB t2 v (provisionDB t1 v freshDB)).app_info.map appInfoKV =
        (provisionDB t1 v freshDB).app_info.map appInfoKV := by
  constructor
  · exact (provisionDB_schema t2 v _).trans (provisionDB_schema t1 v _).symm
  · have r1 : (provisionDB t1 v freshDB).app_info.map appInfoKV =
        expectedAppInfo :=
      provisionDB_app_info_kv t1 v freshDB
        (fun r hr => absurd hr (List.not_mem_nil r))
    have hkeys : ∀ r ∈ (provisionDB t1 v freshDB).app_info,
        r.key ∈ appInfoKeys := by
      intro r hr
      have hmem : appInfoKV r ∈ expectedAppInfo :=
        r1 ▸ List.mem_map_of_mem appInfoKV hr
      simp only [expectedAppInfo, appInfoKV, List.mem_cons,
        List.not_mem_nil, or_false, Prod.mk.injEq] at hmem
      rcases hmem with ⟨hk, _⟩ | ⟨hk, _⟩ | ⟨hk, _⟩ | ⟨hk, _⟩ <;>
        simp [appInfoKeys, hk]
    exact (provisionDB_app_info_kv t2 v _ hkeys).trans r1.symm

/-- Claim C2: after any run, `app_info` holds exactly the four keys
`project_name`, `version`, `author`, `description` with values `"database"`,
`"0.1.0"`, `"John Doe"`, `""`, regardless of what rows existed for those keys
before the run, and a row for each of those keys is present afterwards (the
script never removes a metadata key). The hypothesis restricts prior rows to
those keys, which is the population the claim quantifies over. -/
theorem claim_C2_app_info_exact (now : Timestamp) (v : Option String)
    (s : DBState) (h : ∀ r ∈ s.app_info, r.key ∈ appInfoKeys) :
    (provisionDB now v s).app_info.map appInfoKV = expectedAppInfo ∧
      ∀ k ∈ appInfoKeys, ∃ r ∈ (provisionDB now v s).app_info, r.key = k := by
  have hmap := provisionDB_app_info_kv now v s h
  refine ⟨hmap, ?_⟩
  intro k hk
  have hkeys : (provisionDB now v s).app_info.map (fun r => r.key) =
      appInfoKeys := by
    have := congrArg (List.map Prod.fst) hmap
    rwa [List.map_map] at this
  rw [← hkeys] at hk
  rcases List.mem_map.mp hk with ⟨r, hr, hkey⟩
  exact ⟨r, hr, hkey⟩

/-- Witness for claim C2 at a concrete dirty state. -/
theorem claim_C2_witness :
    (∀ r ∈ dirtyAppInfoState.app_info, r.key ∈ appInfoKeys) ∧
      (provisionDB 5 none dirtyAppInfoState).app_info.map appInfoKV =
        expectedAppInfo :=
  ⟨by decide, (claim_C2_app_info_exact 5 none dirtyAppInfoState (by decide)).1⟩

/-- Claim C3: with the toggle truthy and `todos` initially empty the run
inserts exactly the three sample rows, each with `completed = 0`; in every
other case (toggle truthy but `todos` non-empty, or toggle falsy/unset) it
inserts no `todos` row. -/
theorem claim_C3_seed_counts (now : Timestamp) (v : Option String)
    (s : DBState) (hc : TodosConsistent s) :
    (seed_flag v = true → s.todos = [] →
      (provisionDB now v s).todos.length = s.todos.length + 3 ∧
      ∀ r ∈ (provisionDB now v s).todos, r.completed = 0) ∧
    (seed_flag v = false ∨ s.todos ≠ [] →
      (provisionDB now v s).todos.length = s.todos.length) := by
  rcases provisionDB_todos_shape now v s hc with
    ⟨hf, he, hlen, hcomp⟩ | ⟨hn, heq⟩
  · constructor
    · intro _ _
      exact ⟨by rw [hlen, he]; rfl, hcomp⟩
    · intro hdisj
      rcases hdisj with hfalse | hne
      · rw [hf] at hfalse; exact absurd hfalse (by simp)
      · exact absurd he hne
  · constructor
    · intro hf he
      exact absurd ⟨hf, he⟩ hn
    · intro _
      rw [heq]

/-- Witness for claim C3: the fresh database with SEED_TODOS=1 receives
exactly the three sample rows, all with completed = 0. -/
theorem claim_C3_witness :
    TodosConsistent freshDB ∧
      ((provisionDB 0 (some "1") freshDB).todos.length =
          freshDB.todos.length + 3 ∧
        ∀ r ∈ (provisionDB 0 (some "1") freshDB).todos, r.completed = 0) :=
  ⟨fun _ => rfl,
    (claim_C3_seed_counts 0 (some "1") freshDB (fun _ => rfl)).1
      (by decide) rfl⟩

/-- Claim C4: a run never deletes or modifies a pre-existing `todos` row (the
original rows are an unchanged initial segment of the result), and when no
seeding occurs the table is exactly as found. -/
theorem claim_C4_todos_frame (now : Timestamp) (v : Option String)
    (s : DBState) (hc : TodosConsistent s) :
    (∃ rest, (provisionDB now v s).todos = s.todos ++ rest) ∧
    (¬(seed_flag v = true ∧ s.todos = []) →
      (provisionDB now v s).todos = s.todos) := by
  rcases provisionDB_todos_shape now v s hc with
    ⟨hf, he, _, _⟩ | ⟨hn, heq⟩
  · constructor
    · exact ⟨(provisionDB now v s).todos, by rw [he]; rfl⟩
    · intro hn
      exact absurd ⟨hf, he⟩ hn
  · exact ⟨⟨[], by rw [heq, List.append_nil]⟩, fun _ => heq⟩

/-- Witness for claim C4: with seeding requested but `todos` non-empty, the
table is left exactly as found. -/
theorem claim_C4_witness :
    TodosConsistent busyTodosState ∧
      (provisionDB 0 (some "1") busyTodosState).todos =
        busyTodosState.todos :=
  ⟨fun h => Bool.noConfusion h,
    (claim_C4_todos_frame 0 (some "1") busyTodosState
      (fun h => Bool.noConfusion h)).2 (by decide)⟩

theorem pyLowerChar_of_ws (c : Char) (h : pyWhitespace c = true) :
    pyLowerChar c = c ∧ pyWhitespace (pyLowerChar c) = true := by
  simp only [pyWhitespace, Bool.or_eq_true, decide_eq_true_eq] at h
  rcases h with ⟨⟨⟨⟨h | h⟩ | h⟩ | h⟩ | h⟩ | h <;> subst h <;>
    exact ⟨by decide, by decide⟩

theorem dropWhile_head_false {p : Char → Bool} {c : Char} (l : List Char)
    (h : p c = false) : (c :: l).dropWhile p = c :: l :=
  List.dropWhile_cons_of_neg (by simp [h])

/-- Stripping a string made of a whitespace padding, a non-whitespace core
and a whitespace padding returns exactly the core. -/
theorem pyStripData_surround (a m b : List Char)
    (ha : ∀ c ∈ a, pyWhitespace c = true)
    (hb : ∀ c ∈ b, pyWhitespace c = true)
    (hm : ∀ c ∈ m, pyWhitespace c = false) (hne : m ≠ []) :
    pyStripData (a ++ m ++ b) = m := by
  obtain ⟨c, m', rfl⟩ := List.exists_cons_of_ne_nil hne
  unfold pyStripData
  rw [List.append_assoc, List.dropWhile_append_of_pos ha]
  rw [show (c :: m') ++ b = c :: (m' ++ b) from rfl]
  rw [dropWhile_head_false _ (hm c (List.mem_cons_self c m'))]
  rw [show c :: (m' ++ b) = (c :: m') ++ b from rfl, List.reverse_append]
  rw [List.dropWhile_append_of_pos (fun x hx => hb x (List.mem_reverse.mp hx))]
  rcases hrev : (c :: m').reverse with _ | ⟨d, rest⟩
  · exact absurd hrev (by simp)
  · have hd : d ∈ c :: m' := by
      have : d ∈ (c :: m').reverse := by rw [hrev]; exact List.mem_cons_self d rest
      exact List.mem_reverse.mp this
    rw [dropWhile_head_false _ (hm d hd), ← hrev, List.reverse_reverse]

/-- Claim C5 (counterexample to the claim as stated): the value " TRUE "
(a truthy word surrounded by spaces) is not case-insensitively equal to any
member of the truthy set, yet the script treats it as enabled, because the
script strips whitespace before comparing. -/
theorem claim_C5_counterexample :
    seed_flag (some " TRUE ") = true ∧
      ¬ ∃ t ∈ truthyValues, ciEq " TRUE " t := by
  constructor
  · decide
  · rintro ⟨t, ht, hci⟩
    simp only [truthyValues, List.mem_cons, List.not_mem_nil, or_false] at ht
    rcases ht with rfl | rfl | rfl | rfl <;> exact absurd hci (by decide)

/-- Claim C5 (amended): the toggle is enabled exactly when the variable is
set and its value, after stripping leading and trailing whitespace, is
case-insensitively equal to one of `1`, `true`, `yes`, `y`; absence or any
other value means disabled. -/
theorem claim_C5_amended (v : Option String) :
    seed_flag v = true ↔
      ∃ s, v = some s ∧ ∃ t ∈ truthyValues, ciEq (pyStrip s) t := by
  cases v with
  | none =>
    constructor
    · intro h; exact absurd h (by decide)
    · rintro ⟨s, hs, -⟩; exact Option.noConfusion hs
  | some u =>
    simp only [Option.some.injEq, exists_eq_left']
    unfold seed_flag ciEq
    rw [show (some u).getD "" = u from rfl]
    constructor
    · intro h
      have hmem : pyLower (pyStrip u) ∈ truthyValues :=
        List.elem_iff.mp h
      simp only [truthyValues, List.mem_cons, List.not_mem_nil,
        or_false] at hmem
      rcases hmem with hm | hm | hm | hm
      · exact ⟨"1", by simp [truthyValues], by rw [hm]; decide⟩
      · exact ⟨"true", by simp [truthyValues], by rw [hm]; decide⟩
      · exact ⟨"yes", by simp [truthyValues], by rw [hm]; decide⟩
      · exact ⟨"y", by simp [truthyValues], by rw [hm]; decide⟩
    · rintro ⟨t, ht, hci⟩
      simp only [truthyValues, List.mem_cons, List.not_mem_nil,
        or_false] at ht
      apply List.elem_iff.mpr
      rcases ht with rfl | rfl | rfl | rfl <;>
        · rw [show pyLower (pyStrip u) = _ from hci]
          decide

/-- Claim C10: any value that is a truthy word surrounded by (possibly
empty) whitespace padding enables seeding, because the script strips the
value before the case-insensitive comparison. -/
theorem claim_C10_strip_whitespace (pre post core : String)
    (hpre : ∀ c ∈ pre.data, pyWhitespace c = true)
    (hpost : ∀ c ∈ post.data, pyWhitespace c = true)
    (hcore : truthyValues.contains (pyLower core) = true) :
    seed_flag (some (pre ++ core ++ post)) = true := by
  have hlow : pyLower core ∈ truthyValues := List.elem_iff.mp hcore
  have hcorem : ∀ c ∈ core.data, pyWhitespace c = false := by
    intro c hc
    by_contra hws
    have hws' : pyWhitespace c = true := by
      revert hws; cases pyWhitespace c <;> simp
    have hlc : pyLowerChar c = c := (pyLowerChar_of_ws c hws').1
    have hmem : pyLowerChar c ∈ (pyLower core).data :=
      List.mem_map_of_mem pyLowerChar hc
    simp only [truthyValues, List.mem_cons, List.not_mem_nil,
      or_false] at hlow
    rcases hlow with hl | hl | hl | hl <;>
      · rw [hl] at hmem
        rw [hlc] at hmem
        simp only [List.mem_cons, List.not_mem_nil, or_false] at hmem
        (rcases hmem with rfl | rfl | rfl | rfl) <;>
          exact absurd hws' (by decide)
  have hcne : core.data ≠ [] := by
    intro h0
    rw [show pyLower core = ⟨core.data.map pyLowerChar⟩ from rfl, h0] at hlow
    exact absurd hlow (by decide)
  unfold seed_flag
  rw [show (some (pre ++ core ++ post)).getD "" = pre ++ core ++ post from rfl]
  have hdata : (pre ++ core ++ post).data =
      pre.data ++ core.data ++ post.data := by
    rw [String.data_append, String.data_append]
  rw [show pyStrip (pre ++ core ++ post) =
      ⟨pyStripData ((pre ++ core ++ post).data)⟩ from rfl, hdata,
    pyStripData_surround pre.data core.data post.data hpre hpost hcorem hcne]
  exact hcore

/-- Witness for claim C10 at the concrete value " TRUE ". -/
theorem claim_C10_witness :
    ((∀ c ∈ (" " : String).data, pyWhitespace c = true) ∧
      truthyValues.contains (pyLower "TRUE") = true) ∧
      seed_flag (some (" " ++ "TRUE" ++ " ")) = true :=
  ⟨⟨by decide, by decide⟩,
    claim_C10_strip_whitespace " " " " "TRUE" (by decide) (by decide)
      (by decide)⟩

/-- Claim C6: the run installs the trigger, and after any update of a `todos`
row — whatever columns the update sets, including `updated_at` itself — the
row's `updated_at` equals the update-time timestamp, hence is not earlier
than the update time; the rewrite comes from the trigger, not from the
updating statement. -/
theorem claim_C6_updated_at (now : Timestamp) (f : TodoRow → TodoRow)
    (i : Nat) (todos : List TodoRow) (r : TodoRow)
    (hi : todos[i]? = some r) :
    (∀ t v s, (provisionDB t v s).schema.hasTrigger = true) ∧
      ∃ r', (updateTodoAt now f i todos)[i]? = some r' ∧
        r'.updated_at = now ∧ now ≤ r'.updated_at := by
  constructor
  · intro t v s
    rw [provisionDB_schema]
  · have hlt : i < todos.length := by
      rcases List.getElem?_eq_some_iff.mp hi with ⟨h, -⟩
      exact h
    refine ⟨{ f r with updated_at := now }, ?_, rfl, Nat.le_refl now⟩
    unfold updateTodoAt
    rw [hi]
    unfold trg_todos_updated_at
    rw [List.getElem?_map]
    have hset : (todos.set i (f r))[i]? = some (f r) :=
      List.getElem?_set_self (by simpa using hlt)
    rw [hset]
    simp

/-- Witness for claim C6: a one-row table updated by a statement that itself
assigns `updated_at := 99`; the trigger still rewrites it to the update time
5. -/
theorem claim_C6_witness :
    ([witnessTodoRow][0]? = some witnessTodoRow) ∧
    (∃ r', (updateTodoAt 5 witnessUpdate 0 [witnessTodoRow])[0]? = some r' ∧
      r'.updated_at = 5 ∧ 5 ≤ r'.updated_at) :=
  ⟨rfl, (claim_C6_updated_at 5 witnessUpdate 0 [witnessTodoRow]
    witnessTodoRow rfl).2⟩

/-- Claim C7 (counterexample to the claim as stated): when the database file
already exists, the probe connection issues its `SELECT 1` without ever
setting the foreign-keys pragma, so not every connection sets the pragma
before issuing its statements. -/
theorem claim_C7_counterexample :
    ¬ ∀ conn ∈ connectionsOpened true none true,
      Stmt.pragmaForeignKeys ∈ conn := by
  decide

/-- Claim C7 (amended): the main provisioning connection issues the
foreign-keys pragma before any other statement; the only other connection
the script opens is the accessibility probe, which issues exactly
`SELECT 1` and no pragma. -/
theorem claim_C7_amended (d : Bool) (v : Option String) (e : Bool) :
    probeConnStatements = [Stmt.select1] ∧
    ∀ conn ∈ connectionsOpened d v e,
      conn = probeConnStatements ∨
        conn.head? = some Stmt.pragmaForeignKeys := by
  refine ⟨rfl, ?_⟩
  intro conn hc
  cases d with
  | false =>
    rw [show connectionsOpened false v e =
      [mainConnStatements v e] from rfl] at hc
    obtain rfl := List.mem_singleton.mp hc
    right
    rfl
  | true =>
    rw [show connectionsOpened true v e =
      [probeConnStatements, mainConnStatements v e] from rfl] at hc
    rcases List.mem_cons.mp hc with rfl | hc2
    · exact Or.inl rfl
    · obtain rfl := List.mem_singleton.mp hc2
      right
      rfl

/-- Witness for claim C7 at a run over an existing file with seeding off. -/
theorem claim_C7_witness :
    (mainConnStatements none true ∈ connectionsOpened true none true) ∧
      (mainConnStatements none true = probeConnStatements ∨
        (mainConnStatements none true).head? =
          some Stmt.pragmaForeignKeys) :=
  ⟨by decide, (claim_C7_amended true none true).2
    (mainConnStatements none true) (by decide)⟩

/-- Claim C9: failures in the probe or in either artifact write are caught
and reduced to warnings, with the run completing; a failure in the
connection, schema creation or the inserts is uncaught and the run crashes. -/
theorem claim_C9_error_handling (d : Bool) (env : FailureEnv) :
    (env.connectRaises = false → env.schemaRaises = false →
      env.insertRaises = false → env.makedirsRaises = false →
      runScript d env = RunOutcome.completed
        ((if d && env.probeRaises then [WarningKind.probeCorrupt] else []) ++
         (if env.connInfoWriteRaises then [WarningKind.connInfoWrite]
          else []) ++
         (if env.envWriteRaises then [WarningKind.envWrite] else []))) ∧
    (env.connectRaises = true ∨ env.schemaRaises = true ∨
        env.insertRaises = true →
      ∃ step, runScript d env = RunOutcome.crashed step) := by
  constructor
  · intro h1 h2 h3 h4
    simp [runScript, h1, h2, h3, h4]
  · intro h
    rcases h with hC | hS | hI
    · exact ⟨"connect", by simp [runScript, hC]⟩
    · by_cases hC : env.connectRaises = true
      · exact ⟨"connect", by simp [runScript, hC]⟩
      · have hC' : env.connectRaises = false := by
          revert hC; cases env.connectRaises <;> simp
        exact ⟨"schema", by simp [runScript, hC', hS]⟩
    · by_cases hC : env.connectRaises = true
      · exact ⟨"connect", by simp [runScript, hC]⟩
      · have hC' : env.connectRaises = false := by
          revert hC; cases env.connectRaises <;> simp
        by_cases hS : env.schemaRaises = true
        · exact ⟨"schema", by simp [runScript, hC', hS]⟩
        · have hS' : env.schemaRaises = false := by
            revert hS; cases env.schemaRaises <;> simp
          exact ⟨"insert", by simp [runScript, hC', hS', hI]⟩

/-- Witness for claim C9: with probe and connection-info write failing, the
run still completes, printing exactly those two warnings. -/
theorem claim_C9_witness :
    runScript true softFailures =
      RunOutcome.completed [WarningKind.probeCorrupt,
        WarningKind.connInfoWrite] :=
  (claim_C9_error_handling true softFailures).1 rfl rfl rfl rfl

example : pyNormpath "/a//b/./c" = "/a/b/c" := by decide

example : pyAbspath "/home/user" "myapp.db" = "/home/user/myapp.db" := by
  decide

example : db_abs_path (renderAbsPath []) = "//myapp.db" := by decide

example : pyAbspath (renderAbsPath []) "myapp.db" = "/myapp.db" := by decide

example : pathEquiv "//myapp.db" "/myapp.db" := by
  constructor <;> decide

theorem splitSlash_slash_cons (ys : List Char) :
    splitSlash ('/' :: ys) = [] :: splitSlash ys := by
  simp [splitSlash]

theorem splitSlash_group_append (g : List Char) :
    '/' ∉ g → ∀ ys, splitSlash (g ++ '/' :: ys) = g :: splitSlash ys := by
  induction g with
  | nil =>
    intro _ ys
    exact splitSlash_slash_cons ys
  | cons c g' ih =>
    intro hs ys
    have hc : c ≠ '/' := fun h => hs (h ▸ List.mem_cons_self c g')
    have hs' : '/' ∉ g' := fun h => hs (List.mem_cons_of_mem c h)
    rw [List.cons_append]
    simp only [splitSlash]
    rw [if_neg hc, ih hs' ys]

theorem splitSlash_group (g : List Char) :
    '/' ∉ g → g ≠ [] → splitSlash g = [g] := by
  induction g with
  | nil => intro _ hne; exact absurd rfl hne
  | cons c g' ih =>
    intro hs _
    have hc : c ≠ '/' := fun h => hs (h ▸ List.mem_cons_self c g')
    have hs' : '/' ∉ g' := fun h => hs (List.mem_cons_of_mem c h)
    cases g' with
    | nil => simp [splitSlash, hc]
    | cons d g'' =>
      rw [show splitSlash (c :: d :: g'') =
          (if c = '/' then [] :: splitSlash (d :: g'')
           else match splitSlash (d :: g'') with
             | [] => [[c]]
             | g :: gs => (c :: g) :: gs) from rfl,
        ih hs' (by simp), if_neg hc]

theorem splitSlash_joinComps_append (comps : List (List Char)) :
    (∀ c ∈ comps, '/' ∉ c) → comps ≠ [] → ∀ ys,
      splitSlash (joinComps comps ++ '/' :: ys) =
        comps ++ splitSlash ys := by
  induction comps with
  | nil => intro _ hne; exact absurd rfl hne
  | cons g rest ih =>
    intro hh _ ys
    have hg : '/' ∉ g := hh g (List.mem_cons_self g rest)
    cases rest with
    | nil =>
      rw [show joinComps [g] = g from rfl, splitSlash_group_append g hg ys]
      rfl
    | cons r rest' =>
      rw [show joinComps (g :: r :: rest') =
          g ++ '/' :: joinComps (r :: rest') from rfl]
      rw [List.append_assoc, List.cons_append]
      rw [splitSlash_group_append g hg _]
      rw [ih (fun c hc => hh c (List.mem_cons_of_mem g hc)) (by simp) ys]
      rfl

theorem splitSlash_joinComps (comps : List (List Char)) :
    (∀ c ∈ comps, goodComp c) → comps ≠ [] →
      splitSlash (joinComps comps) = comps := by
  induction comps with
  | nil => intro _ hne; exact absurd rfl hne
  | cons g rest ih =>
    intro hh _
    obtain ⟨hg1, hg2, -, -⟩ := hh g (List.mem_cons_self g rest)
    cases rest with
    | nil =>
      rw [show joinComps [g] = g from rfl, splitSlash_group g hg2 hg1]
    | cons r rest' =>
      rw [show joinComps (g :: r :: rest') =
          g ++ '/' :: joinComps (r :: rest') from rfl]
      rw [splitSlash_group_append g hg2 _]
      rw [ih (fun c hc => hh c (List.mem_cons_of_mem g hc)) (by simp)]

theorem foldl_npStep_good (comps : List (List Char)) :
    ∀ (i : Nat) (acc : List (List Char)), (∀ c ∈ comps, goodComp c) →
      comps.foldl (npStep i) acc = acc ++ comps := by
  induction comps with
  | nil => intro i acc _; simp
  | cons c rest ih =>
    intro i acc hh
    obtain ⟨h1, -, h3, h4⟩ := hh c (List.mem_cons_self c rest)
    rw [List.foldl_cons,
      show npStep i acc c = acc ++ [c] from by
        unfold npStep
        rw [if_neg (not_or.mpr ⟨h1, h3⟩), if_pos (Or.inl h4)],
      ih i (acc ++ [c]) (fun x hx => hh x (List.mem_cons_of_mem c hx))]
    simp

theorem joinComps_cons_decomp (c : List Char) (rest : List (List Char)) :
    ∃ t, joinComps (c :: rest) = c ++ t := by
  cases rest with
  | nil => exact ⟨[], by simp [joinComps]⟩
  | cons r rest' => exact ⟨'/' :: joinComps (r :: rest'), rfl⟩

theorem joinComps_ne_nil (c : List Char) (rest : List (List Char))
    (hc : c ≠ []) : joinComps (c :: rest) ≠ [] := by
  obtain ⟨t, ht⟩ := joinComps_cons_decomp c rest
  rw [ht]
  intro h
  exact hc (List.append_eq_nil.mp h).1

theorem joinComps_getLast_ne_slash (comps : List (List Char)) :
    (∀ c ∈ comps, goodComp c) → comps ≠ [] →
      (joinComps comps).getLast? ≠ some '/' := by
  induction comps with
  | nil => intro _ hne; exact absurd rfl hne
  | cons g rest ih =>
    intro hh _
    obtain ⟨hg1, hg2, -, -⟩ := hh g (List.mem_cons_self g rest)
    cases rest with
    | nil =>
      rw [show joinComps [g] = g from rfl,
        List.getLast?_eq_getLast g hg1]
      intro h
      have hmem := List.getLast_mem hg1
      rw [Option.some.injEq] at h
      rw [h] at hmem
      exact hg2 hmem
    | cons r rest' =>
      have ihr := ih (fun c hc => hh c (List.mem_cons_of_mem g hc)) (by simp)
      have hJne : joinComps (r :: rest') ≠ [] :=
        joinComps_ne_nil r rest' (hh r (by simp)).1
      obtain ⟨j, J', hJ⟩ := List.exists_cons_of_ne_nil hJne
      rw [show joinComps (g :: r :: rest') =
          g ++ '/' :: joinComps (r :: rest') from rfl,
        List.getLast?_append, hJ, List.getLast?_cons_cons]
      rw [hJ] at ihr
      rw [List.getLast?_eq_getLast (j :: J') (by simp)] at ihr ⊢
      rw [Option.or_some]
      exact ihr

theorem initSlashes_abs (ch : Char) (hch : ch ≠ '/') (t : List Char) :
    initSlashes ('/' :: ch :: t) = 1 := by
  unfold initSlashes
  rw [if_neg, if_neg,
    if_pos (show ('/' :: ch :: t).take 1 = ['/'] from rfl)]
  · intro h
    rw [show ('/' :: ch :: t).take 2 = '/' :: ch :: [] from by
      simp [List.take]] at h
    exact hch (by injection h with h1 h2; injection h2 with h3 h4)
  · intro h
    rw [show ('/' :: ch :: t).take 3 = '/' :: ch :: t.take 1 from by
      simp [List.take]] at h
    exact hch (by injection h with h1 h2; injection h2 with h3 h4)

/-- Claim C8: for any canonical working directory (an absolute path made of
sane components, which is all `os.getcwd()` can return), the connection-info
file contains the database's absolute path and the `sqlite:///` connection
string built from it, the environment file contains the `os.path.abspath`
form of the database path, and the two paths written are equal as filesystem
paths (same absoluteness, same canonical components), though not necessarily
as strings. -/
theorem claim_C8_artifact_paths (comps : List (List Char))
    (h : ∀ c ∈ comps, goodComp c) :
    (∃ u w : List Char, (db_connection_txt (renderAbsPath comps)).data =
        u ++ (db_abs_path (renderAbsPath comps)).data ++ w) ∧
    (∃ u w : List Char, (db_connection_txt (renderAbsPath comps)).data =
        u ++ (connection_string (renderAbsPath comps)).data ++ w) ∧
    (∃ u w : List Char, (sqlite_env_file (renderAbsPath comps)).data =
        u ++ (pyAbspath (renderAbsPath comps) DB_NAME).data ++ w) ∧
    pathEquiv (db_abs_path (renderAbsPath comps))
      (pyAbspath (renderAbsPath comps) DB_NAME) := by
  refine ⟨?_, ?_, ?_, ?_⟩
  · refine ⟨("# SQLite connection methods:\n" ++
      "# Python: sqlite3.connect(\x27" ++ DB_NAME ++ "\x27)\n" ++
      "# Connection string: " ++ connection_string (renderAbsPath comps) ++
      "\n" ++ "# File path: ").data,
      ("\n" ++ "# Usage notes:\n" ++
      "# - Always enable foreign keys after connecting: cursor.execute(\"PRAGMA foreign_keys = ON\")\n" ++
      "# - updated_at on todos is maintained by trigger \x27trg_todos_updated_at\x27\n" ++
      "# - Example CLI query: sqlite3 myapp.db \"SELECT * FROM todos;\"\n").data,
      ?_⟩
    simp only [db_connection_txt, String.data_append, List.append_assoc]
  · refine ⟨("# SQLite connection methods:\n" ++
      "# Python: sqlite3.connect(\x27" ++ DB_NAME ++ "\x27)\n" ++
      "# Connection string: ").data,
      ("\n" ++ "# File path: " ++ db_abs_path (renderAbsPath comps) ++
      "\n" ++ "# Usage notes:\n" ++
      "# - Always enable foreign keys after connecting: cursor.execute(\"PRAGMA foreign_keys = ON\")\n" ++
      "# - updated_at on todos is maintained by trigger \x27trg_todos_updated_at\x27\n" ++
      "# - Example CLI query: sqlite3 myapp.db \"SELECT * FROM todos;\"\n").data,
      ?_⟩
    simp only [db_connection_txt, String.data_append, List.append_assoc]
  · refine ⟨("export SQLITE_DB=\"" : String).data, ("\"\n" : String).data, ?_⟩
    simp [sqlite_env_file, String.data_append, List.append_assoc]
  · cases comps with
    | nil => decide
    | cons c rest =>
      obtain ⟨hc1, hc2, -, -⟩ := h c (List.mem_cons_self c rest)
      obtain ⟨ch, c', hc'⟩ := List.exists_cons_of_ne_nil hc1
      have hch : ch ≠ '/' := fun hh => hc2 (by rw [hc']; exact hh ▸ List.mem_cons_self ch c')
      have hdata : (db_abs_path (renderAbsPath (c :: rest))).data =
          '/' :: (joinComps (c :: rest) ++ '/' :: DB_NAME.data) := by
        simp [db_abs_path, renderAbsPath, String.data_append,
          List.append_assoc, show ("/" : String).data = ['/'] from rfl]
      have hgood2 : ∀ x ∈ (c :: rest) ++ [DB_NAME.data], goodComp x := by
        intro x hx
        rcases List.mem_append.mp hx with hx | hx
        · exact h x hx
        · rw [List.mem_singleton.mp hx]; decide
      have hsplit : splitSlash
          ('/' :: (joinComps (c :: rest) ++ '/' :: DB_NAME.data)) =
          [] :: ((c :: rest) ++ [DB_NAME.data]) := by
        rw [splitSlash_slash_cons,
          splitSlash_joinComps_append (c :: rest)
            (fun x hx => (h x hx).2.1) (by simp) DB_NAME.data,
          show splitSlash DB_NAME.data = [DB_NAME.data] from by decide]
      have hinit : initSlashes
          ('/' :: (joinComps (c :: rest) ++ '/' :: DB_NAME.data)) = 1 := by
        obtain ⟨t, ht⟩ := joinComps_cons_decomp c rest
        rw [ht, hc']
        rw [show ((ch :: c') ++ t) ++ '/' :: DB_NAME.data =
          ch :: (c' ++ (t ++ '/' :: DB_NAME.data)) from by
            simp [List.append_assoc]]
        exact initSlashes_abs ch hch _
      have hparts1 : pathParts (db_abs_path (renderAbsPath (c :: rest))) =
          (c :: rest) ++ [DB_NAME.data] := by
        unfold pathParts
        rw [hdata, hinit, hsplit, List.foldl_cons,
          show npStep 1 [] [] = [] from rfl,
          foldl_npStep_good _ 1 [] hgood2, List.nil_append]
      have hjoin : pyJoin (renderAbsPath (c :: rest)) DB_NAME =
          db_abs_path (renderAbsPath (c :: rest)) := by
        unfold pyJoin
        rw [if_neg (by decide), if_neg ?_]
        · rfl
        · rintro (habs | hlast)
          · exact List.noConfusion habs
          · have hJne : joinComps (c :: rest) ≠ [] :=
              joinComps_ne_nil c rest hc1
            have hgl := joinComps_getLast_ne_slash (c :: rest) h (by simp)
            obtain ⟨j, J', hJ⟩ := List.exists_cons_of_ne_nil hJne
            rw [show (renderAbsPath (c :: rest)).data =
              '/' :: joinComps (c :: rest) from rfl, hJ,
              List.getLast?_cons_cons] at hlast
            rw [hJ] at hgl
            exact hgl hlast
      have habs : pyAbspath (renderAbsPath (c :: rest)) DB_NAME =
          pyNormpath (db_abs_path (renderAbsPath (c :: rest))) := by
        unfold pyAbspath
        rw [if_neg (by decide), hjoin]
      have hnorm : (pyNormpath (db_abs_path (renderAbsPath (c :: rest)))).data
          = '/' :: joinComps ((c :: rest) ++ [DB_NAME.data]) := by
        show pyNormpathData (db_abs_path (renderAbsPath (c :: rest))).data = _
        rw [hdata]
        simp only [pyNormpathData]
        rw [if_neg (by simp), hinit, hsplit, List.foldl_cons,
          show npStep 1 [] [] = [] from rfl,
          foldl_npStep_good _ 1 [] hgood2, List.nil_append,
          if_neg (by simp)]
        rfl
      have hG2 : (c :: rest) ++ [DB_NAME.data] =
          c :: (rest ++ [DB_NAME.data]) := by simp
      have hparts2 : pathParts (pyAbspath (renderAbsPath (c :: rest))
          DB_NAME) = (c :: rest) ++ [DB_NAME.data] := by
        rw [habs]
        unfold pathParts
        rw [hnorm]
        obtain ⟨t2, ht2⟩ := joinComps_cons_decomp c (rest ++ [DB_NAME.data])
        have hinit2 : initSlashes
            ('/' :: joinComps ((c :: rest) ++ [DB_NAME.data])) = 1 := by
          rw [hG2, ht2, hc']
          rw [show (ch :: c') ++ t2 = ch :: (c' ++ t2) from by simp]
          exact initSlashes_abs ch hch _
        have hsplit2 : splitSlash
            ('/' :: joinComps ((c :: rest) ++ [DB_NAME.data])) =
            [] :: ((c :: rest) ++ [DB_NAME.data]) := by
          rw [splitSlash_slash_cons,
            splitSlash_joinComps ((c :: rest) ++ [DB_NAME.data]) hgood2
              (by simp)]
        rw [hinit2, hsplit2, List.foldl_cons,
          show npStep 1 [] [] = [] from rfl,
          foldl_npStep_good _ 1 [] hgood2, List.nil_append]
      constructor
      · show isAbsPath _ = isAbsPath _
        rw [habs]
        unfold isAbsPath
        rw [hdata, hnorm]
        rfl
      · rw [hparts1, hparts2]

/-- Witness for claim C8 at the concrete working directory `/home/user`. -/
theorem claim_C8_witness :
    (∀ c ∈ [("home" : String).data, ("user" : String).data], goodComp c) ∧
      pathEquiv
        (db_abs_path (renderAbsPath
          [("home" : String).data, ("user" : String).data]))
        (pyAbspath (renderAbsPath
          [("home" : String).data, ("user" : String).data]) DB_NAME) :=
  ⟨by decide, (claim_C8_artifact_paths
    [("home" : String).data, ("user" : String).data] (by decide)).2.2.2⟩
